import Mathlib

/-!
Verification of the packet classification and filtering engine of
`src/security/firewall.c` (function `apply_rules` together with the rule
table set up in `main`).

The buffer handed to `apply_rules` is modelled as a total byte function
`mem : Nat → Nat` (the underlying capture buffer, every offset readable,
each cell reduced mod 256) together with the valid length `len` reported
by `recvfrom`.  An access at offset `i ≥ len` is an out-of-bounds read of
stale buffer contents; modelling the buffer as total makes such reads
observable: a result that depends on bytes at or past `len` depends on
`mem` beyond the valid prefix.

All multi-byte loads mirror a little-endian host (the platform the source
targets via `<linux/if_packet.h>`): a 16-bit field is loaded
little-endian from the two wire bytes and `ntohs` byte-swaps it, a 32-bit
field is loaded little-endian from the four wire bytes.
-/

namespace Firewall

/-- `ETH_P_IP` from `<net/ethernet.h>`: the IPv4 ethertype. -/
def ETH_P_IP : Nat := 0x0800

/-- `IPPROTO_ICMP` from `<netinet/in.h>`. -/
def IPPROTO_ICMP : Nat := 1

/-- `IPPROTO_TCP` from `<netinet/in.h>`. -/
def IPPROTO_TCP : Nat := 6

/-- `IPPROTO_UDP` from `<netinet/in.h>`. -/
def IPPROTO_UDP : Nat := 17

/-- `struct firewall_rule` of firewall.c: protocol (uint8_t, 0 = any),
destination port (uint16_t, 0 = any), source IP (uint32_t, 0 = any),
and `allow` (int: nonzero = allow, 0 = deny). -/
structure firewall_rule where
  protocol : Nat
  port : Nat
  src_ip : Nat
  allow : Nat
deriving DecidableEq, Repr

/-- Read one byte of the capture buffer (a `uint8_t` cell). -/
def byte (mem : Nat → Nat) (i : Nat) : Nat := mem i % 256

/-- Little-endian load of a 16-bit quantity at offset `i`, as the host
sees a `uint16_t` field overlaid on the buffer. -/
def load16le (mem : Nat → Nat) (i : Nat) : Nat :=
  byte mem i + byte mem (i + 1) * 256

/-- Little-endian load of a 32-bit quantity at offset `i`, as the host
sees a `uint32_t` field overlaid on the buffer. -/
def load32le (mem : Nat → Nat) (i : Nat) : Nat :=
  byte mem i + byte mem (i + 1) * 256 + byte mem (i + 2) * 65536 +
    byte mem (i + 3) * 16777216

/-- `ntohs`: byte-swap of a 16-bit value (network to host order on a
little-endian host). -/
def ntohs (v : Nat) : Nat := v % 256 * 256 + v / 256 % 256

/-- `ntohs(eth_hdr->ether_type)`: the ethertype field sits at offsets
12–13 of the frame (`struct ether_header`).  firewall.c reads it with no
length check at all. -/
def ether_type (mem : Nat → Nat) : Nat := ntohs (load16le mem 12)

/-- `ip_hdr->ihl`: the low nibble of the first IPv4 header byte
(offset 14), per the little-endian bitfield layout of `struct iphdr`. -/
def ihl (mem : Nat → Nat) : Nat := byte mem 14 % 16

/-- `ip_hdr->protocol`: offset 9 inside the IPv4 header, absolute
offset 23. -/
def ip_protocol (mem : Nat → Nat) : Nat := byte mem 23

/-- `ip_hdr->saddr`: the 32-bit source address field at absolute offsets
26–29, loaded as the host sees the `uint32_t` — firewall.c applies no
byte-order conversion to it. -/
def saddr (mem : Nat → Nat) : Nat := load32le mem 26

/-- The `port` local of `apply_rules`: initialised to 0; for TCP the
destination port (offset 2 of `struct tcphdr`) is read through `ntohs`
only when `len >= 14 + ihl*4 + 20`, for UDP (offset 2 of
`struct udphdr`) only when `len >= 14 + ihl*4 + 8`; otherwise it stays
0. -/
def transport_port (mem : Nat → Nat) (len : Nat) : Nat :=
  if ip_protocol mem = IPPROTO_TCP then
    if 14 + ihl mem * 4 + 20 ≤ len then
      ntohs (load16le mem (14 + ihl mem * 4 + 2))
    else 0
  else if ip_protocol mem = IPPROTO_UDP then
    if 14 + ihl mem * 4 + 8 ≤ len then
      ntohs (load16le mem (14 + ihl mem * 4 + 2))
    else 0
  else 0

/-- The match condition of the rule loop in `apply_rules`: each of the
three fields either equals the packet's field or is the 0 wildcard. -/
def ruleMatches (r : firewall_rule) (proto port sip : Nat) : Bool :=
  (r.protocol == proto || r.protocol == 0) &&
  (r.port == port || r.port == 0) &&
  (r.src_ip == sip || r.src_ip == 0)

/-- The rule loop of `apply_rules`, carrying the loop index `i`: the
first rule satisfying the match condition is returned with its index;
later rules are never examined. -/
def firstMatchAux (i : Nat) (rules : List firewall_rule)
    (proto port sip : Nat) : Option (Nat × firewall_rule) :=
  match rules with
  | [] => none
  | r :: rs =>
    if ruleMatches r proto port sip then some (i, r)
    else firstMatchAux (i + 1) rs proto port sip

/-- The rule loop started at index 0. -/
def firstMatch (rules : List firewall_rule) (proto port sip : Nat) :
    Option (Nat × firewall_rule) :=
  firstMatchAux 0 rules proto port sip

/-- The literal `return 1` that `apply_rules` falls through to when no
rule matches (`/* Allow by default if no rule matches */`). -/
def default_action : Nat := 1

/-- `apply_rules(packet, len, rules, num_rules)` of firewall.c, with the
rule array as a list.  Control flow in source order: the ethertype is
read (with no bounds check) and non-IP frames are allowed; then frames
with `len < sizeof(ether_header) + sizeof(iphdr) = 34` are denied; then
the transport port is extracted under its own length guard; then the
rule loop returns the first matching rule's `allow`, and 1 is returned
when no rule matches. -/
def apply_rules (mem : Nat → Nat) (len : Nat)
    (rules : List firewall_rule) : Nat :=
  if ether_type mem ≠ ETH_P_IP then 1
  else if len < 14 + 20 then 0
  else
    match firstMatch rules (ip_protocol mem) (transport_port mem len)
        (saddr mem) with
    | some (_, r) => r.allow
    | none => default_action

/-- The hardcoded rule table of `main`: allow TCP port 80, deny all
ICMP, allow UDP port 53. -/
def mainRules : List firewall_rule :=
  [⟨IPPROTO_TCP, 80, 0, 1⟩, ⟨IPPROTO_ICMP, 0, 0, 0⟩,
   ⟨IPPROTO_UDP, 53, 0, 1⟩]

/-- Build a buffer from an explicit byte list (bytes past the list are
the stale contents 0). -/
def listMem (L : List Nat) : Nat → Nat := fun i => L.getD i 0

/-- A well-formed Ethernet+IPv4 frame as a byte list: 12 MAC bytes, the
ethertype, a 20-byte IPv4 header with the given protocol and source
address bytes, then the payload bytes. -/
def ipFrame (proto : Nat) (s0 s1 s2 s3 : Nat) (payload : List Nat) :
    List Nat :=
  List.replicate 12 0 ++ [0x08, 0x00] ++
  [0x45, 0, 0, 0, 0, 0, 0, 0, 64, proto, 0, 0] ++
  [s0, s1, s2, s3] ++ [10, 0, 0, 2] ++ payload

/-- A minimal 20-byte TCP header with the given destination port. -/
def tcpPayload (dport : Nat) : List Nat :=
  [0, 0, dport / 256, dport % 256] ++ List.replicate 16 0

/-- A minimal 8-byte UDP header with the given destination port. -/
def udpPayload (dport : Nat) : List Nat :=
  [0, 0, dport / 256, dport % 256, 0, 0, 0, 0]

end Firewall

namespace Firewall

/-! ### Concrete frames used as test vectors -/

/-- A well-formed TCP/IPv4 frame to destination port 80, source
10.0.0.1; valid length 54. -/
def tcp80mem : Nat → Nat :=
  listMem (ipFrame IPPROTO_TCP 10 0 0 1 (tcpPayload 80))

/-- A well-formed TCP/IPv4 frame to destination port 22; valid
length 54. -/
def tcp22mem : Nat → Nat :=
  listMem (ipFrame IPPROTO_TCP 10 0 0 1 (tcpPayload 22))

/-- A well-formed ICMP/IPv4 frame (no transport header needed); valid
length 34. -/
def icmpMem : Nat → Nat := listMem (ipFrame IPPROTO_ICMP 10 0 0 1 [])

/-- A well-formed UDP/IPv4 frame to destination port 53; valid
length 42. -/
def udp53mem : Nat → Nat :=
  listMem (ipFrame IPPROTO_UDP 10 0 0 1 (udpPayload 53))

/-- A TCP/IPv4 frame cut off right after the IPv4 header: valid length
34, no transport bytes. -/
def tcpTruncMem : Nat → Nat := listMem (ipFrame IPPROTO_TCP 10 0 0 1 [])

/-- A UDP/IPv4 frame cut off right after the IPv4 header: valid length
34, no transport bytes. -/
def udpTruncMem : Nat → Nat := listMem (ipFrame IPPROTO_UDP 10 0 0 1 [])

/-- An ARP frame: ethertype 0x0806, 28 payload bytes; valid length 42. -/
def arpMem : Nat → Nat :=
  listMem (List.replicate 12 0 ++ [0x08, 0x06] ++ List.replicate 28 0)

/-- An IPv4/TCP frame of valid length 34 whose IHL nibble is 15, so the
declared IP header length (60 bytes) exceeds the bytes present after the
Ethernet header (20). -/
def ihlOverrunMem : Nat → Nat :=
  listMem (List.replicate 12 0 ++ [0x08, 0x00] ++
    [0x4F, 0, 0, 0, 0, 0, 0, 0, 64, 6, 0, 0] ++ [10, 0, 0, 1] ++
    [10, 0, 0, 2])

/-- A well-formed TCP/IPv4 frame to port 80 whose source address wire
bytes are 1.2.3.4; valid length 54. -/
def oddSrcMem : Nat → Nat :=
  listMem (ipFrame IPPROTO_TCP 1 2 3 4 (tcpPayload 80))

/-! ### The spec's view of the source address -/

/-- Refinement comparison — this definition follows the spec's words,
not the source: the source address converted to host order at
extraction, i.e. the four wire bytes assembled most-significant first
(what `ntohl(ip_hdr->saddr)` would produce on a little-endian host).
It is to be compared with `saddr`, the value firewall.c actually uses. -/
def spec_saddr_host_order (mem : Nat → Nat) : Nat :=
  byte mem 26 * 16777216 + byte mem 27 * 65536 + byte mem 28 * 256 +
    byte mem 29

/-! ### The observable side effects of a call -/

/-- The protocol-name ternary of the printf in `apply_rules`: anything
other than TCP or UDP prints as "ICMP". -/
def protoName (proto : Nat) : String :=
  if proto = IPPROTO_TCP then "TCP"
  else if proto = IPPROTO_UDP then "UDP"
  else "ICMP"

/-- `inet_ntop(AF_INET, &ip_hdr->saddr, ...)`: dotted-decimal rendering
of the four source-address wire bytes, in wire order. -/
def srcIpStr (mem : Nat → Nat) : String :=
  toString (byte mem 26) ++ "." ++ toString (byte mem 27) ++ "." ++
    toString (byte mem 28) ++ "." ++ toString (byte mem 29)

/-- The indeterminate data the rule-hit printf of `apply_rules`
consumes.  That printf's format string has five conversion specifiers
("%s %s packet (proto %u, port %u, src %s)") but the call passes only
four arguments (the allow/deny string, the protocol name, `port`, and
`src_ip_str`), so the variadic slots shift: the "proto %u" slot is
filled by `port`, the "port %u" slot by the bits of the `src_ip_str`
stack pointer (a value that is no function of the frame or the rules),
and the "src %s" slot reads a variadic argument that was never passed —
undefined behavior.  The renderings of the last two slots are therefore
supplied by this environment rather than computed from the inputs (and
the real call may not complete at all if the stale slot is not a
readable pointer; the model here is the completing execution a hosted
printf gives when it is). -/
structure LogEnv where
  ptrSlot : String
  staleSlot : String

/-- The console lines one call of `apply_rules` prints: nothing on the
non-IP and truncated paths; on a rule hit the line the mismatched printf
produces — determinate up to "proto <port>, port ", then the two
environment-supplied slots; on no match the default line, whose printf
has matching arguments and is fully determinate. -/
def logOf (env : LogEnv) (mem : Nat → Nat) (len : Nat)
    (rules : List firewall_rule) : List String :=
  if ether_type mem ≠ ETH_P_IP then []
  else if len < 14 + 20 then []
  else
    match firstMatch rules (ip_protocol mem) (transport_port mem len)
        (saddr mem) with
    | some (_, r) =>
      [(if r.allow ≠ 0 then "Allowed " else "Denied ") ++
        protoName (ip_protocol mem) ++ " packet (proto " ++
        toString (transport_port mem len) ++ ", port " ++
        env.ptrSlot ++ ", src " ++ env.staleSlot ++ ")"]
    | none =>
      ["Allowed packet (no matching rule, proto " ++
        toString (ip_protocol mem) ++ ", port " ++
        toString (transport_port mem len) ++ ", src " ++ srcIpStr mem ++
        ")"]

/-- The state the capture loop of `main` can observe around a call:
the packet buffer, the rule table and the console output. -/
structure World where
  buf : Nat → Nat
  rules : List firewall_rule
  out : List String

/-- One call of `apply_rules` as the capture loop performs it, against
an environment supplying the indeterminate printf slots: the buffer and
rule table are read, the console grows by the printed lines, and the
decision is returned. -/
def classifyCall (env : LogEnv) (w : World) (len : Nat) : World × Nat :=
  (⟨w.buf, w.rules, w.out ++ logOf env w.buf len w.rules⟩,
   apply_rules w.buf len w.rules)

/-! ### Helper lemmas about the rule loop and buffer reads -/

/-- If every rule in `pre` fails the match condition and `r` satisfies
it, the loop started at `i` over `pre ++ r :: post` stops exactly at
`r`, at index `i + pre.length`. -/
theorem firstMatchAux_append (post : List firewall_rule)
    (r : firewall_rule) (proto port sip : Nat) :
    ∀ (pre : List firewall_rule) (i : Nat),
      (∀ r' ∈ pre, ruleMatches r' proto port sip = false) →
      ruleMatches r proto port sip = true →
      firstMatchAux i (pre ++ r :: post) proto port sip =
        some (i + pre.length, r) := by
  intro pre
  induction pre with
  | nil =>
    intro i _ hr
    simp [firstMatchAux, hr]
  | cons p ps ih =>
    intro i hpre hr
    have hp : ruleMatches p proto port sip = false :=
      hpre p (List.mem_cons_self p ps)
    have hps : ∀ r' ∈ ps, ruleMatches r' proto port sip = false :=
      fun r' h => hpre r' (List.mem_cons_of_mem p h)
    simp only [List.cons_append, firstMatchAux, hp, Bool.false_eq_true,
      if_false, List.append_eq]
    rw [ih (i + 1) hps hr]
    have h1 : i + 1 + ps.length = i + (p :: ps).length := by
      simp [List.length_cons]; omega
    rw [h1]

/-- If no rule in the list matches, the loop finds nothing. -/
theorem firstMatchAux_none (proto port sip : Nat) :
    ∀ (rules : List firewall_rule) (i : Nat),
      (∀ r ∈ rules, ruleMatches r proto port sip = false) →
      firstMatchAux i rules proto port sip = none := by
  intro rules
  induction rules with
  | nil => intro i _; rfl
  | cons p ps ih =>
    intro i h
    have hp : ruleMatches p proto port sip = false :=
      h p (List.mem_cons_self p ps)
    have hps : ∀ r' ∈ ps, ruleMatches r' proto port sip = false :=
      fun r' hm => h r' (List.mem_cons_of_mem p hm)
    simp only [firstMatchAux, hp, Bool.false_eq_true, if_false]
    exact ih (i + 1) hps

/-- Two buffers agreeing byte for byte below `len` produce the same
16-bit loads at offsets read entirely below `len`. -/
theorem load16le_congr (mem mem' : Nat → Nat) (len i : Nat)
    (hb : ∀ j, j < len → byte mem j = byte mem' j) (h : i + 1 < len) :
    load16le mem i = load16le mem' i := by
  unfold load16le
  rw [hb i (by omega), hb (i + 1) h]

/-- For frames of valid length at least 34 whose ethertype is IPv4,
`apply_rules` reads no byte at or past `len`: two buffers that agree
below `len` classify identically. -/
theorem apply_rules_reads_below_len (mem mem' : Nat → Nat) (len : Nat)
    (rules : List firewall_rule) (hlen : 34 ≤ len)
    (hb : ∀ j, j < len → byte mem j = byte mem' j) :
    apply_rules mem len rules = apply_rules mem' len rules := by
  have he : ether_type mem = ether_type mem' := by
    unfold ether_type
    rw [load16le_congr mem mem' len 12 hb (by omega)]
  have hi : ihl mem = ihl mem' := by
    unfold ihl; rw [hb 14 (by omega)]
  have hp : ip_protocol mem = ip_protocol mem' := by
    unfold ip_protocol; rw [hb 23 (by omega)]
  have hs : saddr mem = saddr mem' := by
    unfold saddr load32le
    rw [hb 26 (by omega), hb 27 (by omega), hb 28 (by omega),
      hb 29 (by omega)]
  have ht : transport_port mem len = transport_port mem' len := by
    unfold transport_port
    rw [hp, hi]
    by_cases htcp : ip_protocol mem' = IPPROTO_TCP
    · simp only [htcp, if_true]
      by_cases hg : 14 + ihl mem' * 4 + 20 ≤ len
      · simp only [hg, if_true]
        rw [load16le_congr mem mem' len (14 + ihl mem' * 4 + 2) hb
          (by omega)]
      · simp [hg]
    · simp only [htcp, if_false]
      by_cases hudp : ip_protocol mem' = IPPROTO_UDP
      · simp only [hudp, if_true]
        by_cases hg : 14 + ihl mem' * 4 + 8 ≤ len
        · simp only [hg, if_true]
          rw [load16le_congr mem mem' len (14 + ihl mem' * 4 + 2) hb
            (by omega)]
        · simp [hg]
      · simp [hudp]
  unfold apply_rules
  rw [he, hp, hs, ht]

end Firewall

namespace Firewall

/-- `ntohs` applied to the little-endian load of two wire bytes yields
the big-endian (wire-order) value: high wire byte times 256 plus low
wire byte. -/
theorem ntohs_load16le (mem : Nat → Nat) (i : Nat) :
    ntohs (load16le mem i) = byte mem i * 256 + byte mem (i + 1) := by
  unfold ntohs load16le byte
  have ha : mem i % 256 < 256 := Nat.mod_lt _ (by norm_num)
  have hb : mem (i + 1) % 256 < 256 := Nat.mod_lt _ (by norm_num)
  omega

/-! ### Claim theorems -/

/-- C1: the claim says a frame shorter than 14 bytes is always denied
and no byte at or past the provided length is read.  The code instead
dereferences the ethertype (offsets 12–13) before any length check:
with valid length 12 and both buffers all zero on the valid prefix
(offsets 0–11), the stale bytes at offsets 12–13 flip the decision, and
the all-zero stale buffer is ALLOWED (returns 1), not denied. -/
theorem c1_short_frame_fail_open :
    apply_rules (fun _ => 0) 12 mainRules = 1 ∧
    apply_rules (listMem (List.replicate 12 0 ++ [0x08, 0x00])) 12
      mainRules = 0 ∧
    apply_rules (fun _ => 0) 0 mainRules = 1 := by
  exact ⟨by decide, by decide, by decide⟩

/-- C2 counterexample: an IPv4/TCP frame of valid length 34 whose IHL
field declares a 60-byte IP header (more than the 20 bytes present) is
NOT denied under the empty rule table — `apply_rules` returns 1 —
refuting "denied regardless of the contents of the rule table". -/
theorem c2_ihl_overrun_not_denied :
    ihl ihlOverrunMem * 4 = 60 ∧
    ether_type ihlOverrunMem = ETH_P_IP ∧
    apply_rules ihlOverrunMem 34 [] = 1 := by
  exact ⟨by decide, by decide, by decide⟩

/-- C2 (amended): an IPv4 frame with fewer than 20 bytes after the
Ethernet header is denied regardless of the rule table; a frame whose
IHL-declared header exceeds the buffer is not denied for that reason
(the transport port is simply left 0, see `c2_ihl_overrun_not_denied`);
and for valid lengths ≥ 34 no byte at or past the provided length is
read: buffers agreeing below `len` classify identically. -/
theorem c2_truncated_ip_denied (mem mem' : Nat → Nat) (len : Nat)
    (rules : List firewall_rule) :
    (ether_type mem = ETH_P_IP → len < 34 →
      apply_rules mem len rules = 0) ∧
    (34 ≤ len → (∀ j, j < len → byte mem j = byte mem' j) →
      apply_rules mem len rules = apply_rules mem' len rules) := by
  constructor
  · intro he hlen
    unfold apply_rules
    rw [if_neg (by simp [he]), if_pos (by omega)]
  · intro hlen hb
    exact apply_rules_reads_below_len mem mem' len rules hlen hb

/-- C2 witness: the first part at a 20-byte truncated IPv4 frame, the
second at two buffers of length 54 that agree below it. -/
theorem c2_truncated_ip_denied_witness :
    apply_rules tcp80mem 20 mainRules = 0 ∧
    apply_rules tcp80mem 54 mainRules = apply_rules tcp80mem 54
      mainRules :=
  ⟨(c2_truncated_ip_denied tcp80mem tcp80mem 20 mainRules).1 (by decide)
      (by decide),
   (c2_truncated_ip_denied tcp80mem tcp80mem 54 mainRules).2 (by decide)
      (fun j _ => rfl)⟩

/-- C3: first-match-wins.  If every rule before `r` in the table fails
the match condition and `r` satisfies it, the loop stops exactly at `r`
(index = number of preceding rules) and `apply_rules` returns `r`'s
action, whatever rules follow; and concretely, prepending a
(TCP, any, any, deny) rule to [(TCP, 80, any, allow)] flips the decision
for a TCP frame to port 80 from allow to deny. -/
theorem c3_first_match_wins :
    (∀ (pre post : List firewall_rule) (r : firewall_rule)
        (mem : Nat → Nat) (len : Nat),
      ether_type mem = ETH_P_IP → 34 ≤ len →
      (∀ r' ∈ pre, ruleMatches r' (ip_protocol mem)
        (transport_port mem len) (saddr mem) = false) →
      ruleMatches r (ip_protocol mem) (transport_port mem len)
        (saddr mem) = true →
      firstMatch (pre ++ r :: post) (ip_protocol mem)
          (transport_port mem len) (saddr mem) = some (pre.length, r) ∧
        apply_rules mem len (pre ++ r :: post) = r.allow) ∧
    apply_rules tcp80mem 54 [⟨IPPROTO_TCP, 80, 0, 1⟩] = 1 ∧
    apply_rules tcp80mem 54
      (⟨IPPROTO_TCP, 0, 0, 0⟩ :: [⟨IPPROTO_TCP, 80, 0, 1⟩]) = 0 := by
  refine ⟨?_, by decide, by decide⟩
  intro pre post r mem len he hlen hpre hr
  have hfm : firstMatch (pre ++ r :: post) (ip_protocol mem)
      (transport_port mem len) (saddr mem) = some (0 + pre.length, r) :=
    firstMatchAux_append post r _ _ _ pre 0 hpre hr
  rw [Nat.zero_add] at hfm
  refine ⟨hfm, ?_⟩
  unfold apply_rules
  rw [if_neg (by simp [he]), if_neg (by omega), hfm]

/-- C3 witness: the general part applied to the one-rule table
[(TCP, 80, any, allow)] and the concrete port-80 TCP frame. -/
theorem c3_first_match_wins_witness :
    firstMatch ([] ++ (⟨IPPROTO_TCP, 80, 0, 1⟩ : firewall_rule) :: [])
        (ip_protocol tcp80mem) (transport_port tcp80mem 54)
        (saddr tcp80mem) =
      some (List.length ([] : List firewall_rule),
        ⟨IPPROTO_TCP, 80, 0, 1⟩) ∧
    apply_rules tcp80mem 54
        ([] ++ (⟨IPPROTO_TCP, 80, 0, 1⟩ : firewall_rule) :: []) =
      (⟨IPPROTO_TCP, 80, 0, 1⟩ : firewall_rule).allow :=
  c3_first_match_wins.1 [] [] ⟨IPPROTO_TCP, 80, 0, 1⟩ tcp80mem 54
    (by decide) (by decide) (by simp) (by decide)

/-- C4: against the hardcoded table of `main` (allow TCP 80, deny ICMP,
allow UDP 53; default allow): the port-80 TCP frame is allowed by rule 0,
the ICMP frame is denied by rule 1, the port-53 UDP frame is allowed by
rule 2, and the port-22 TCP frame matches no rule and falls to the
default allow. -/
theorem c4_main_table_cases :
    (apply_rules tcp80mem 54 mainRules = 1 ∧
      firstMatch mainRules (ip_protocol tcp80mem)
        (transport_port tcp80mem 54) (saddr tcp80mem) =
          some (0, ⟨IPPROTO_TCP, 80, 0, 1⟩)) ∧
    (apply_rules icmpMem 34 mainRules = 0 ∧
      firstMatch mainRules (ip_protocol icmpMem)
        (transport_port icmpMem 34) (saddr icmpMem) =
          some (1, ⟨IPPROTO_ICMP, 0, 0, 0⟩)) ∧
    (apply_rules udp53mem 42 mainRules = 1 ∧
      firstMatch mainRules (ip_protocol udp53mem)
        (transport_port udp53mem 42) (saddr udp53mem) =
          some (2, ⟨IPPROTO_UDP, 53, 0, 1⟩)) ∧
    (apply_rules tcp22mem 54 mainRules = 1 ∧
      firstMatch mainRules (ip_protocol tcp22mem)
        (transport_port tcp22mem 54) (saddr tcp22mem) = none) := by
  decide

/-- C5: a frame whose ethertype is not IPv4 is allowed, and the rule
table is never consulted: the decision is 1 under every table, equal to
the decision under the empty table. -/
theorem c5_non_ip_always_allowed (mem : Nat → Nat) (len : Nat)
    (rules : List firewall_rule) (h : ether_type mem ≠ ETH_P_IP) :
    apply_rules mem len rules = 1 ∧
    apply_rules mem len rules = apply_rules mem len [] := by
  constructor <;> simp [apply_rules, if_pos h]

/-- C5 witness: an ARP frame under an all-deny table. -/
theorem c5_non_ip_always_allowed_witness :
    apply_rules arpMem 42 [⟨0, 0, 0, 0⟩] = 1 ∧
    apply_rules arpMem 42 [⟨0, 0, 0, 0⟩] = apply_rules arpMem 42 [] :=
  c5_non_ip_always_allowed arpMem 42 [⟨0, 0, 0, 0⟩] (by decide)

end Firewall

namespace Firewall

/-- C6: when no rule in the table satisfies the match condition for a
well-formed IPv4 frame, `apply_rules` returns the default action, the
fixed policy constant allow (1). -/
theorem c6_no_match_default_allow (mem : Nat → Nat) (len : Nat)
    (rules : List firewall_rule) (he : ether_type mem = ETH_P_IP)
    (hlen : 34 ≤ len)
    (hnone : ∀ r ∈ rules, ruleMatches r (ip_protocol mem)
      (transport_port mem len) (saddr mem) = false) :
    apply_rules mem len rules = default_action ∧ default_action = 1 := by
  refine ⟨?_, rfl⟩
  have hfm : firstMatch rules (ip_protocol mem) (transport_port mem len)
      (saddr mem) = none :=
    firstMatchAux_none (ip_protocol mem) (transport_port mem len)
      (saddr mem) rules 0 hnone
  unfold apply_rules
  rw [if_neg (by simp [he]), if_neg (by omega), hfm]

/-- C6 witness: the port-22 TCP frame against the table of `main`, whose
three rules all fail to match it. -/
theorem c6_no_match_default_allow_witness :
    apply_rules tcp22mem 54 mainRules = default_action ∧
    default_action = 1 :=
  c6_no_match_default_allow tcp22mem 54 mainRules (by decide) (by decide)
    (by decide)

/-- C7 counterexample: a TCP frame cut off after the IPv4 header has its
port left 0, and under the table [(TCP, any, any, deny)] — whose only
rule has the port wildcard, so no rule requires the missing port — the
packet IS denied, refuting "denied only if a rule specifically requires
the missing port field". -/
theorem c7_truncated_transport_denied_by_wildcard :
    transport_port tcpTruncMem 34 = 0 ∧
    (⟨IPPROTO_TCP, 0, 0, 0⟩ : firewall_rule).port = 0 ∧
    apply_rules tcpTruncMem 34 [⟨IPPROTO_TCP, 0, 0, 0⟩] = 0 := by
  decide

/-- C7 (amended): the destination port is read only when enough bytes
remain for the minimal transport header (20 for TCP, 8 for UDP) past the
IHL-declared IP header, and is left 0 otherwise; matching still proceeds
on the IP-layer fields (in particular a truncated-transport packet under
the empty table falls to the default allow, it is not auto-denied); and
a rule with a non-wildcard port field can never match such a packet,
positively or negatively — only port-wildcard rules can decide it. -/
theorem c7_truncated_transport (mem : Nat → Nat) (len : Nat) :
    (ip_protocol mem = IPPROTO_TCP → len < 14 + ihl mem * 4 + 20 →
      transport_port mem len = 0) ∧
    (ip_protocol mem = IPPROTO_UDP → len < 14 + ihl mem * 4 + 8 →
      transport_port mem len = 0) ∧
    (ip_protocol mem = IPPROTO_TCP → 14 + ihl mem * 4 + 20 ≤ len →
      transport_port mem len =
        ntohs (load16le mem (14 + ihl mem * 4 + 2))) ∧
    (ip_protocol mem = IPPROTO_UDP → 14 + ihl mem * 4 + 8 ≤ len →
      transport_port mem len =
        ntohs (load16le mem (14 + ihl mem * 4 + 2))) ∧
    (ether_type mem = ETH_P_IP → 34 ≤ len →
      apply_rules mem len [] = default_action) ∧
    (∀ (r : firewall_rule) (sip : Nat), transport_port mem len = 0 →
      r.port ≠ 0 →
      ruleMatches r (ip_protocol mem) (transport_port mem len) sip =
        false) := by
  refine ⟨?_, ?_, ?_, ?_, ?_, ?_⟩
  · intro h hlt
    unfold transport_port
    rw [if_pos h, if_neg (by omega)]
  · intro h hlt
    unfold transport_port
    rw [if_neg (by rw [h]; decide), if_pos h, if_neg (by omega)]
  · intro h hle
    unfold transport_port
    rw [if_pos h, if_pos hle]
  · intro h hle
    unfold transport_port
    rw [if_neg (by rw [h]; decide), if_pos h, if_pos hle]
  · intro he hlen
    unfold apply_rules
    rw [if_neg (by simp [he]), if_neg (by omega)]
    rfl
  · intro r sip h0 hne
    rw [h0]
    simp [ruleMatches, hne]

/-- C7 witness: the port guards at the truncated and the well-formed
TCP and UDP frames, the empty-table default at the truncated TCP frame,
and the port-80 rule failing to match it. -/
theorem c7_truncated_transport_witness :
    transport_port tcpTruncMem 34 = 0 ∧
    transport_port udpTruncMem 34 = 0 ∧
    transport_port tcp80mem 54 =
      ntohs (load16le tcp80mem (14 + ihl tcp80mem * 4 + 2)) ∧
    transport_port udp53mem 42 =
      ntohs (load16le udp53mem (14 + ihl udp53mem * 4 + 2)) ∧
    apply_rules tcpTruncMem 34 [] = default_action ∧
    ruleMatches ⟨IPPROTO_TCP, 80, 0, 1⟩ (ip_protocol tcpTruncMem)
      (transport_port tcpTruncMem 34) 0 = false :=
  ⟨(c7_truncated_transport tcpTruncMem 34).1 (by decide) (by decide),
   (c7_truncated_transport udpTruncMem 34).2.1 (by decide) (by decide),
   (c7_truncated_transport tcp80mem 54).2.2.1 (by decide) (by decide),
   (c7_truncated_transport udp53mem 42).2.2.2.1 (by decide) (by decide),
   (c7_truncated_transport tcpTruncMem 34).2.2.2.2.1 (by decide)
     (by decide),
   (c7_truncated_transport tcpTruncMem 34).2.2.2.2.2
     ⟨IPPROTO_TCP, 80, 0, 1⟩ 0 (by decide) (by decide)⟩

/-- C8 counterexample: for the frame whose source-address wire bytes are
1.2.3.4, the value `apply_rules` matches against is the unconverted
little-endian load 0x04030201, not the host-order value 0x01020304: a
deny rule keyed on the host-order address does not match (the frame
falls to the default allow), while one keyed on the byte-swapped value
does match and denies — refuting "the source address is converted to
host order at extraction". -/
theorem c8_saddr_not_host_order :
    saddr oddSrcMem ≠ spec_saddr_host_order oddSrcMem ∧
    saddr oddSrcMem = 67305985 ∧
    spec_saddr_host_order oddSrcMem = 16909060 ∧
    apply_rules oddSrcMem 54 [⟨0, 0, 16909060, 0⟩] = 1 ∧
    apply_rules oddSrcMem 54 [⟨0, 0, 67305985, 0⟩] = 0 := by
  decide

/-- C8 (amended): the 16-bit fields — ethertype and destination port —
are converted from wire order to host order exactly once, by `ntohs` at
extraction (their ParsedPacket values equal the big-endian assembly of
the wire bytes); the 32-bit source address receives no conversion and
stays in network byte order (its ParsedPacket value is the little-endian
assembly of the wire bytes). -/
theorem c8_endianness (mem : Nat → Nat) (len : Nat) :
    ether_type mem = byte mem 12 * 256 + byte mem 13 ∧
    (ip_protocol mem = IPPROTO_TCP → 14 + ihl mem * 4 + 20 ≤ len →
      transport_port mem len =
        byte mem (14 + ihl mem * 4 + 2) * 256 +
          byte mem (14 + ihl mem * 4 + 3)) ∧
    (ip_protocol mem = IPPROTO_UDP → 14 + ihl mem * 4 + 8 ≤ len →
      transport_port mem len =
        byte mem (14 + ihl mem * 4 + 2) * 256 +
          byte mem (14 + ihl mem * 4 + 3)) ∧
    saddr mem = byte mem 26 + byte mem 27 * 256 + byte mem 28 * 65536 +
      byte mem 29 * 16777216 := by
  have h23 : 14 + ihl mem * 4 + 2 + 1 = 14 + ihl mem * 4 + 3 := by omega
  refine ⟨?_, ?_, ?_, rfl⟩
  · unfold ether_type
    rw [ntohs_load16le]
  · intro h hle
    unfold transport_port
    rw [if_pos h, if_pos hle, ntohs_load16le, h23]
  · intro h hle
    unfold transport_port
    rw [if_neg (by rw [h]; decide), if_pos h, if_pos hle,
      ntohs_load16le, h23]

/-- C8 amended-claim witness: the conversions evaluated on the concrete
port-80 TCP frame and port-53 UDP frame. -/
theorem c8_endianness_witness :
    ether_type tcp80mem = byte tcp80mem 12 * 256 + byte tcp80mem 13 ∧
    transport_port tcp80mem 54 =
      byte tcp80mem (14 + ihl tcp80mem * 4 + 2) * 256 +
        byte tcp80mem (14 + ihl tcp80mem * 4 + 3) ∧
    transport_port udp53mem 42 =
      byte udp53mem (14 + ihl udp53mem * 4 + 2) * 256 +
        byte udp53mem (14 + ihl udp53mem * 4 + 3) ∧
    saddr udp53mem = byte udp53mem 26 + byte udp53mem 27 * 256 +
      byte udp53mem 28 * 65536 + byte udp53mem 29 * 16777216 :=
  ⟨(c8_endianness tcp80mem 54).1,
   (c8_endianness tcp80mem 54).2.1 (by decide) (by decide),
   (c8_endianness udp53mem 42).2.2.1 (by decide) (by decide),
   (c8_endianness udp53mem 42).2.2.2⟩

/-- C9: the decision of one classification call is deterministic and
the call is effect-free apart from its console lines: a second call on
the unchanged buffer and rule table returns the identical decision even
when the indeterminate printf slots of the two calls are filled
differently, the decision never depends on those slots, and the call
leaves the buffer and the rule table untouched, only appending its log
lines to the console output (whose rule-hit line is indeterminate, see
`LogEnv`). -/
theorem c9_deterministic_pure (env env' : LogEnv) (w : World)
    (len : Nat) :
    (classifyCall env w len).2 =
      (classifyCall env' (classifyCall env w len).1 len).2 ∧
    (classifyCall env w len).2 = (classifyCall env' w len).2 ∧
    (classifyCall env w len).1.buf = w.buf ∧
    (classifyCall env w len).1.rules = w.rules ∧
    (classifyCall env w len).1.out =
      w.out ++ logOf env w.buf len w.rules :=
  ⟨rfl, rfl, rfl, rfl, rfl⟩

/-- C10: the 0 wildcard.  A rule whose three fields are 0 matches every
packet; a 0 in a field makes the match insensitive to that packet field;
a rule that matches a packet whose port (resp. protocol, source address)
is 0 necessarily has the wildcard in that field — so no rule can demand
specifically port 0, protocol 0, or source 0.0.0.0 — and then matches
every value of it; and every packet without a readable destination port
(non-TCP/UDP protocol, or TCP/UDP with a truncated transport header)
carries port 0. -/
theorem c10_zero_wildcard :
    (∀ (proto port sip a : Nat),
      ruleMatches ⟨0, 0, 0, a⟩ proto port sip = true) ∧
    (∀ (r : firewall_rule) (proto proto' port sip : Nat),
      r.protocol = 0 →
      ruleMatches r proto port sip = ruleMatches r proto' port sip) ∧
    (∀ (r : firewall_rule) (proto port port' sip : Nat), r.port = 0 →
      ruleMatches r proto port sip = ruleMatches r proto port' sip) ∧
    (∀ (r : firewall_rule) (proto port sip sip' : Nat), r.src_ip = 0 →
      ruleMatches r proto port sip = ruleMatches r proto port sip') ∧
    (∀ (r : firewall_rule) (proto port sip : Nat),
      ruleMatches r proto 0 sip = true →
      r.port = 0 ∧ ruleMatches r proto port sip = true) ∧
    (∀ (r : firewall_rule) (proto' port sip : Nat),
      ruleMatches r 0 port sip = true →
      r.protocol = 0 ∧ ruleMatches r proto' port sip = true) ∧
    (∀ (r : firewall_rule) (proto port sip' : Nat),
      ruleMatches r proto port 0 = true →
      r.src_ip = 0 ∧ ruleMatches r proto port sip' = true) ∧
    (∀ (mem : Nat → Nat) (len : Nat), ip_protocol mem ≠ IPPROTO_TCP →
      ip_protocol mem ≠ IPPROTO_UDP → transport_port mem len = 0) ∧
    (∀ (mem : Nat → Nat) (len : Nat), ip_protocol mem = IPPROTO_TCP →
      len < 14 + ihl mem * 4 + 20 → transport_port mem len = 0) ∧
    (∀ (mem : Nat → Nat) (len : Nat), ip_protocol mem = IPPROTO_UDP →
      len < 14 + ihl mem * 4 + 8 → transport_port mem len = 0) := by
  refine ⟨?_, ?_, ?_, ?_, ?_, ?_, ?_, ?_, ?_, ?_⟩
  · intro proto port sip a
    simp [ruleMatches]
  · intro r proto proto' port sip h
    simp [ruleMatches, h]
  · intro r proto port port' sip h
    simp [ruleMatches, h]
  · intro r proto port sip sip' h
    simp [ruleMatches, h]
  · intro r proto port sip h
    simp only [ruleMatches, Bool.and_eq_true, Bool.or_eq_true,
      beq_iff_eq] at h ⊢
    obtain ⟨⟨hp, hq⟩, hs⟩ := h
    have hq0 : r.port = 0 := by rcases hq with h | h <;> exact h
    exact ⟨hq0, ⟨hp, Or.inr hq0⟩, hs⟩
  · intro r proto' port sip h
    simp only [ruleMatches, Bool.and_eq_true, Bool.or_eq_true,
      beq_iff_eq] at h ⊢
    obtain ⟨⟨hp, hq⟩, hs⟩ := h
    have hp0 : r.protocol = 0 := by rcases hp with h | h <;> exact h
    exact ⟨hp0, ⟨Or.inr hp0, hq⟩, hs⟩
  · intro r proto port sip' h
    simp only [ruleMatches, Bool.and_eq_true, Bool.or_eq_true,
      beq_iff_eq] at h ⊢
    obtain ⟨⟨hp, hq⟩, hs⟩ := h
    have hs0 : r.src_ip = 0 := by rcases hs with h | h <;> exact h
    exact ⟨hs0, ⟨hp, hq⟩, Or.inr hs0⟩
  · intro mem len h1 h2
    unfold transport_port
    rw [if_neg h1, if_neg h2]
  · intro mem len h hlt
    unfold transport_port
    rw [if_pos h, if_neg (by omega)]
  · intro mem len h hlt
    unfold transport_port
    rw [if_neg (by rw [h]; decide), if_pos h, if_neg (by omega)]

/-- C10 witness: the wildcard behaviors evaluated on concrete rules and
the concrete ICMP and truncated TCP/UDP frames. -/
theorem c10_zero_wildcard_witness :
    ruleMatches ⟨0, 0, 0, 1⟩ 6 80 16777226 = true ∧
    ruleMatches ⟨0, 53, 10, 0⟩ 6 7 8 = ruleMatches ⟨0, 53, 10, 0⟩ 17 7 8 ∧
    ruleMatches ⟨6, 0, 10, 0⟩ 6 80 8 = ruleMatches ⟨6, 0, 10, 0⟩ 6 22 8 ∧
    ruleMatches ⟨6, 80, 0, 1⟩ 6 80 3 = ruleMatches ⟨6, 80, 0, 1⟩ 6 80 9 ∧
    ((⟨6, 0, 0, 0⟩ : firewall_rule).port = 0 ∧
      ruleMatches ⟨6, 0, 0, 0⟩ 6 443 0 = true) ∧
    ((⟨0, 0, 0, 0⟩ : firewall_rule).protocol = 0 ∧
      ruleMatches ⟨0, 0, 0, 0⟩ 17 0 0 = true) ∧
    ((⟨6, 0, 0, 0⟩ : firewall_rule).src_ip = 0 ∧
      ruleMatches ⟨6, 0, 0, 0⟩ 6 0 99 = true) ∧
    transport_port icmpMem 34 = 0 ∧
    transport_port tcpTruncMem 34 = 0 ∧
    transport_port udpTruncMem 34 = 0 :=
  ⟨c10_zero_wildcard.1 6 80 16777226 1,
   c10_zero_wildcard.2.1 ⟨0, 53, 10, 0⟩ 6 17 7 8 rfl,
   c10_zero_wildcard.2.2.1 ⟨6, 0, 10, 0⟩ 6 80 22 8 rfl,
   c10_zero_wildcard.2.2.2.1 ⟨6, 80, 0, 1⟩ 6 80 3 9 rfl,
   c10_zero_wildcard.2.2.2.2.1 ⟨6, 0, 0, 0⟩ 6 443 0 (by decide),
   c10_zero_wildcard.2.2.2.2.2.1 ⟨0, 0, 0, 0⟩ 17 0 0 (by decide),
   c10_zero_wildcard.2.2.2.2.2.2.1 ⟨6, 0, 0, 0⟩ 6 0 99 (by decide),
   c10_zero_wildcard.2.2.2.2.2.2.2.1 icmpMem 34 (by decide) (by decide),
   c10_zero_wildcard.2.2.2.2.2.2.2.2.1 tcpTruncMem 34 (by decide)
     (by decide),
   c10_zero_wildcard.2.2.2.2.2.2.2.2.2 udpTruncMem 34 (by decide)
     (by decide)⟩

end Firewall
